import Mathlib

/-!
Verification of the deep-research-sandbox data contracts: the shared
TypeScript type catalog (packages/shared/typescript/src), the relational
schema (infra/supabase/migrations/001_initial_schema.sql,
infra/supabase/types.sql) and the documented backend validation rules of
the shared-types package. Each TypeScript interface or SQL table below is
a direct shallow embedding of the corresponding declaration; validation
rules whose Python source is not part of this repository slice are
modelled from the documented rules, and say so in their doc comment.
-/

namespace DeepResearch

/-! ### Shared research types, from packages/shared/typescript/src/research.ts -/

/-- Status of a research task: the four string literals of the TaskStatus
union type in research.ts. -/
inductive TaskStatus where
  | pending
  | running
  | completed
  | failed
deriving DecidableEq, Repr, Fintype

/-- Wire string of a TaskStatus value, as the TypeScript string literals. -/
def TaskStatus.toWire : TaskStatus → String
  | .pending => "pending"
  | .running => "running"
  | .completed => "completed"
  | .failed => "failed"

/-- A citation from a research source (Citation in research.ts). -/
structure Citation where
  title : String
  url : String
  snippet : String
deriving DecidableEq, Repr

/-- An inference derived from research findings (Inference in research.ts).
The field degrees_of_separation is an integer count of logical steps from
direct evidence. -/
structure Inference where
  claim : String
  supporting_citations : List String
  degrees_of_separation : Int
  reasoning : String
deriving DecidableEq, Repr

/-- A step in the research agent reasoning trace (ReasoningStep in
research.ts). -/
structure ReasoningStep where
  step_number : Int
  action : String
  input : String
  output : String
  rationale : String
deriving DecidableEq, Repr

/-- Complete result of a research task (ResearchResult in research.ts).
The confidence_score field is a numeric score; FLOAT values are embedded
as rationals, which is exact for the range comparisons the schema makes. -/
structure ResearchResult where
  summary : String
  key_findings : List String
  inferences : List Inference
  reasoning_trace : List ReasoningStep
  citations : List Citation
  confidence_score : ℚ
deriving DecidableEq, Repr

/-- A research task with its status and results (ResearchTask in
research.ts). Nullable fields of the TypeScript interface are Option. -/
structure ResearchTask where
  id : String
  query : String
  status : TaskStatus
  result : Option ResearchResult
  error_message : Option String
  created_at : String
  started_at : Option String
  completed_at : Option String
deriving DecidableEq, Repr

/-! ### Relational schema, from infra/supabase/migrations/001_initial_schema.sql
and infra/supabase/types.sql. JSONB columns are embedded as an untyped
JSON value; FLOAT columns as Option of a rational (NULL is none). -/

/-- Untyped JSON value, the embedding of JSONB column contents. -/
inductive JsonValue where
  | null
  | bool (b : Bool)
  | num (q : ℚ)
  | str (s : String)
  | arr (elems : List JsonValue)
  | obj (fields : List (String × JsonValue))

/-- The task_status enum type of infra/supabase/types.sql: its four
labels in declaration order. -/
def task_status : List String := ["pending", "running", "completed", "failed"]

/-- CHECK constraint chk_task_status of the migration: status IN the four
literals. -/
def chk_task_status (status : String) : Bool :=
  (["pending", "running", "completed", "failed"] : List String).contains status

/-- CHECK constraint chk_confidence_range of the migration: confidence IS
NULL OR between 0.0 and 1.0 inclusive. -/
def chk_confidence_range : Option ℚ → Bool
  | none => true
  | some c => decide (0 ≤ c) && decide (c ≤ 1)

/-- CHECK constraint chk_degrees_non_negative of the migration:
degrees_of_separation at least 0. -/
def chk_degrees_non_negative (d : Int) : Bool :=
  decide (0 ≤ d)

/-- CHECK constraint chk_score_range of the migration: score IS NULL OR
between 0.0 and 1.0 inclusive. -/
def chk_score_range : Option ℚ → Bool
  | none => true
  | some s => decide (0 ≤ s) && decide (s ≤ 1)

/-- Row of the research_tasks table. Columns without NOT NULL are Option. -/
structure ResearchTaskRow where
  id : String
  query : String
  config : JsonValue
  status : String
  result : Option JsonValue
  reasoning_trace : Option JsonValue
  error : Option String
  created_at : Option String
  started_at : Option String
  completed_at : Option String
  metadata : JsonValue

/-- Row of the research_findings table. -/
structure ResearchFindingRow where
  id : String
  task_id : String
  sub_query : String
  response : String
  citations : JsonValue
  confidence : Option ℚ
  created_at : Option String

/-- Row of the inferences table. -/
structure InferenceRow where
  id : String
  task_id : String
  claim : String
  supporting_citations : JsonValue
  degrees_of_separation : Int
  reasoning : String
  created_at : Option String

/-- Row of the eval_results table. -/
structure EvalResultRow where
  id : String
  task_id : String
  eval_type : String
  score : Option ℚ
  details : Option JsonValue
  created_at : Option String

/-- The four tables of the schema. -/
structure Database where
  research_tasks : List ResearchTaskRow
  research_findings : List ResearchFindingRow
  inferences : List InferenceRow
  eval_results : List EvalResultRow

/-- All CHECK constraints of the migration hold on every row. -/
def Database.satisfiesChecks (db : Database) : Bool :=
  db.research_tasks.all (fun t => chk_task_status t.status) &&
  db.research_findings.all (fun f => chk_confidence_range f.confidence) &&
  db.inferences.all (fun r => chk_degrees_non_negative r.degrees_of_separation) &&
  db.eval_results.all (fun e => chk_score_range e.score)

/-- A row inserted into research_tasks giving only id and query takes the
DEFAULT values of the table definition: status defaults to the literal
pending, config and metadata to the empty JSON object, every other
column to NULL. -/
def newResearchTaskRow (id : String) (query : String) : ResearchTaskRow where
  id := id
  query := query
  config := .obj []
  status := "pending"
  result := none
  reasoning_trace := none
  error := none
  created_at := none
  started_at := none
  completed_at := none
  metadata := .obj []

/-- ON DELETE CASCADE semantics of the three foreign keys: deleting the
research_tasks row with the given id removes it and every dependent
research_findings, inferences and eval_results row whose task_id
references it. -/
def Database.deleteResearchTask (db : Database) (tid : String) : Database where
  research_tasks := db.research_tasks.filter (fun t => t.id ≠ tid)
  research_findings := db.research_findings.filter (fun f => f.task_id ≠ tid)
  inferences := db.inferences.filter (fun r => r.task_id ≠ tid)
  eval_results := db.eval_results.filter (fun e => e.task_id ≠ tid)

/-! ### Documented backend validation, from the shared-types package README.
The Python Pydantic models themselves are not part of this repository
slice; the rules below are modelled from their documented statement. -/

/-- Modelled from the spec: the documented backend validation rule for
Inference.degrees_of_separation, stated as at least 1; the Pydantic model
carrying the rule is not in the repository slice. -/
def validInferenceDegrees (d : Int) : Bool :=
  decide (1 ≤ d)

/-- Modelled from the spec: the documented backend validation rule for
ResearchResult.confidence_score, between 0.0 and 1.0 inclusive; the
Pydantic model carrying the rule is not in the repository slice. -/
def validResearchResult (r : ResearchResult) : Bool :=
  decide (0 ≤ r.confidence_score) && decide (r.confidence_score ≤ 1)

/-! ### Event types, from packages/shared/typescript/src/events.ts -/

/-- Types of events that can be emitted: the five string literals of the
EventType union in events.ts. -/
inductive EventType where
  | task_created
  | task_started
  | step_completed
  | task_completed
  | task_failed
deriving DecidableEq, Repr, Fintype

/-- Union type for all events (StreamEvent in events.ts): one constructor
per interface extending BaseEvent, carrying the base fields task_id and
timestamp plus the variant-specific payload fields. -/
inductive StreamEvent where
  | TaskCreatedEvent (task_id : String) (timestamp : String) (query : String)
  | TaskStartedEvent (task_id : String) (timestamp : String)
  | StepCompletedEvent (task_id : String) (timestamp : String) (step : ReasoningStep)
  | TaskCompletedEvent (task_id : String) (timestamp : String) (result : ResearchResult)
  | TaskFailedEvent (task_id : String) (timestamp : String) (error : String)
      (error_details : Option (List (String × JsonValue)))

/-- The event_type discriminant of a StreamEvent value, as the literal
types fixed by each interface in events.ts. -/
def StreamEvent.event_type : StreamEvent → EventType
  | .TaskCreatedEvent .. => .task_created
  | .TaskStartedEvent .. => .task_started
  | .StepCompletedEvent .. => .step_completed
  | .TaskCompletedEvent .. => .task_completed
  | .TaskFailedEvent .. => .task_failed

/-- The fields of the BaseEvent interface in events.ts, in declaration
order. -/
def baseEventFields : List String := ["event_type", "task_id", "timestamp"]

/-- The payload fields present on a StreamEvent value: the base fields
plus the fields the variant interface declares. -/
def StreamEvent.fieldNames : StreamEvent → List String
  | .TaskCreatedEvent .. => ["event_type", "task_id", "timestamp", "query"]
  | .TaskStartedEvent .. => ["event_type", "task_id", "timestamp"]
  | .StepCompletedEvent .. => ["event_type", "task_id", "timestamp", "step"]
  | .TaskCompletedEvent .. => ["event_type", "task_id", "timestamp", "result"]
  | .TaskFailedEvent .. => ["event_type", "task_id", "timestamp", "error", "error_details"]

/-- The fields each events.ts interface declares, keyed by its event_type
tag. -/
def declaredFields : EventType → List String
  | .task_created => ["event_type", "task_id", "timestamp", "query"]
  | .task_started => ["event_type", "task_id", "timestamp"]
  | .step_completed => ["event_type", "task_id", "timestamp", "step"]
  | .task_completed => ["event_type", "task_id", "timestamp", "result"]
  | .task_failed => ["event_type", "task_id", "timestamp", "error", "error_details"]

/-! ### API types, from packages/shared/typescript/src/api.ts -/

/-- Request to create a new research task (CreateResearchRequest in
api.ts). Optional fields are Option; the TypeScript declaration marks
webhook_url as optional and nullable, collapsed here to one Option. -/
structure CreateResearchRequest where
  query : String
  webhook_url : Option String
  max_iterations : Option Int
deriving DecidableEq, Repr

/-- Modelled from the spec: the documented backend validation of
CreateResearchRequest (query 1 to 2000 characters; max_iterations, when
given, 1 to 20); the Pydantic model carrying the rules is not in the
repository slice. -/
def validateCreateResearchRequest (r : CreateResearchRequest) : Bool :=
  decide (1 ≤ r.query.length) && decide (r.query.length ≤ 2000) &&
  (match r.max_iterations with
   | none => true
   | some n => decide (1 ≤ n) && decide (n ≤ 20))

/-- Event types for the SSE stream: the six string literals of the
StreamEventType union in api.ts. -/
inductive StreamEventType where
  | task_created
  | task_started
  | step_completed
  | task_completed
  | task_failed
  | heartbeat
deriving DecidableEq, Repr, Fintype

/-- The inclusion of the five EventType tags of events.ts into the
six-valued StreamEventType of api.ts, literal by literal. -/
def EventType.toStreamEventType : EventType → StreamEventType
  | .task_created => .task_created
  | .task_started => .task_started
  | .step_completed => .step_completed
  | .task_completed => .task_completed
  | .task_failed => .task_failed

/-- A chunk in the research SSE stream (ResearchStreamChunk in api.ts):
an event tag plus an opaque payload map. -/
structure ResearchStreamChunk where
  event : StreamEventType
  data : List (String × JsonValue)

/-! ### JSON wire serialization of ResearchTask.

Modelled from the spec: the wire shape is the ResearchTask interface of
research.ts (field names and value domains, nullable fields carried as
JSON null); no serializer source is in the repository slice, so the
encoder writes exactly the declared fields and the decoder reads them
back by field lookup. -/

/-- Lookup of a field by name in a JSON object field list, first match. -/
def lookupField : List (String × JsonValue) → String → Option JsonValue
  | [], _ => none
  | (k, v) :: rest, name => if k = name then some v else lookupField rest name

/-- Field access on a JSON value: a lookup when it is an object. -/
def JsonValue.getField : JsonValue → String → Option JsonValue
  | .obj fields, name => lookupField fields name
  | _, _ => none

/-- A JSON value read back as a string. -/
def asString : JsonValue → Option String
  | .str s => some s
  | _ => none

/-- A JSON value read back as an integer: a number with denominator 1. -/
def asInt : JsonValue → Option Int
  | .num q => if q.den = 1 then some q.num else none
  | _ => none

/-- A JSON value read back as a rational number. -/
def asRat : JsonValue → Option ℚ
  | .num q => some q
  | _ => none

/-- A nullable string field: JSON null decodes to none, a string to some. -/
def asNullableString : JsonValue → Option (Option String)
  | .null => some none
  | .str s => some (some s)
  | _ => none

/-- Encoding of a nullable string: none becomes JSON null. -/
def encodeNullableString : Option String → JsonValue
  | none => .null
  | some s => .str s

/-- Decoding of every element of a JSON array, failing if one fails. -/
def decodeArray (dec : JsonValue → Option α) : List JsonValue → Option (List α)
  | [] => some []
  | v :: vs =>
    match dec v, decodeArray dec vs with
    | some a, some as => some (a :: as)
    | _, _ => none

/-- A JSON value read back as an array decoded elementwise. -/
def asArray (dec : JsonValue → Option α) : JsonValue → Option (List α)
  | .arr vs => decodeArray dec vs
  | _ => none

/-- Wire encoding of a Citation, the fields of research.ts. -/
def encodeCitation (c : Citation) : JsonValue :=
  .obj [("title", .str c.title), ("url", .str c.url), ("snippet", .str c.snippet)]

/-- Wire decoding of a Citation. -/
def decodeCitation (v : JsonValue) : Option Citation :=
  match (v.getField "title").bind asString,
        (v.getField "url").bind asString,
        (v.getField "snippet").bind asString with
  | some title, some url, some snippet => some ⟨title, url, snippet⟩
  | _, _, _ => none

/-- Wire encoding of an Inference, the fields of research.ts. -/
def encodeInference (r : Inference) : JsonValue :=
  .obj [("claim", .str r.claim),
        ("supporting_citations", .arr (r.supporting_citations.map .str)),
        ("degrees_of_separation", .num (r.degrees_of_separation : ℚ)),
        ("reasoning", .str r.reasoning)]

/-- Wire decoding of an Inference. -/
def decodeInference (v : JsonValue) : Option Inference :=
  match (v.getField "claim").bind asString,
        (v.getField "supporting_citations").bind (asArray asString),
        (v.getField "degrees_of_separation").bind asInt,
        (v.getField "reasoning").bind asString with
  | some claim, some cits, some deg, some reasoning => some ⟨claim, cits, deg, reasoning⟩
  | _, _, _, _ => none

/-- Wire encoding of a ReasoningStep, the fields of research.ts. -/
def encodeReasoningStep (s : ReasoningStep) : JsonValue :=
  .obj [("step_number", .num (s.step_number : ℚ)),
        ("action", .str s.action),
        ("input", .str s.input),
        ("output", .str s.output),
        ("rationale", .str s.rationale)]

/-- Wire decoding of a ReasoningStep. -/
def decodeReasoningStep (v : JsonValue) : Option ReasoningStep :=
  match (v.getField "step_number").bind asInt,
        (v.getField "action").bind asString,
        (v.getField "input").bind asString,
        (v.getField "output").bind asString,
        (v.getField "rationale").bind asString with
  | some n, some action, some inp, some outp, some rationale =>
    some ⟨n, action, inp, outp, rationale⟩
  | _, _, _, _, _ => none

/-- Wire encoding of a ResearchResult, the fields of research.ts. -/
def encodeResearchResult (r : ResearchResult) : JsonValue :=
  .obj [("summary", .str r.summary),
        ("key_findings", .arr (r.key_findings.map .str)),
        ("inferences", .arr (r.inferences.map encodeInference)),
        ("reasoning_trace", .arr (r.reasoning_trace.map encodeReasoningStep)),
        ("citations", .arr (r.citations.map encodeCitation)),
        ("confidence_score", .num r.confidence_score)]

/-- Wire decoding of a ResearchResult. -/
def decodeResearchResult (v : JsonValue) : Option ResearchResult :=
  match (v.getField "summary").bind asString,
        (v.getField "key_findings").bind (asArray asString),
        (v.getField "inferences").bind (asArray decodeInference),
        (v.getField "reasoning_trace").bind (asArray decodeReasoningStep),
        (v.getField "citations").bind (asArray decodeCitation),
        (v.getField "confidence_score").bind asRat with
  | some summary, some kf, some infs, some trace, some cits, some score =>
    some ⟨summary, kf, infs, trace, cits, score⟩
  | _, _, _, _, _, _ => none

/-- Parse of a wire status string back to a TaskStatus value. -/
def statusFromWire : String → Option TaskStatus
  | "pending" => some .pending
  | "running" => some .running
  | "completed" => some .completed
  | "failed" => some .failed
  | _ => none

/-- Wire encoding of a ResearchTask: exactly the fields of the
ResearchTask interface, with null for the nullable fields that are none. -/
def encodeResearchTask (t : ResearchTask) : JsonValue :=
  .obj [("id", .str t.id),
        ("query", .str t.query),
        ("status", .str t.status.toWire),
        ("result", match t.result with
                   | none => .null
                   | some r => encodeResearchResult r),
        ("error_message", encodeNullableString t.error_message),
        ("created_at", .str t.created_at),
        ("started_at", encodeNullableString t.started_at),
        ("completed_at", encodeNullableString t.completed_at)]

/-- Wire decoding of the nullable result field. -/
def decodeNullableResult : JsonValue → Option (Option ResearchResult)
  | .null => some none
  | v => (decodeResearchResult v).map some

/-- Wire decoding of a ResearchTask. -/
def decodeResearchTask (v : JsonValue) : Option ResearchTask :=
  match (v.getField "id").bind asString,
        (v.getField "query").bind asString,
        ((v.getField "status").bind asString).bind statusFromWire,
        (v.getField "result").bind decodeNullableResult,
        (v.getField "error_message").bind asNullableString,
        (v.getField "created_at").bind asString,
        (v.getField "started_at").bind asNullableString,
        (v.getField "completed_at").bind asNullableString with
  | some id, some query, some status, some result, some err, some ca, some sa, some co =>
    some ⟨id, query, status, result, err, ca, sa, co⟩
  | _, _, _, _, _, _, _, _ => none

/-! ### Task lifecycle.

Modelled from the spec: the task lifecycle (created in pending, pending
to running, running to completed or failed, no transition back); the
repository slice holds no orchestration code, only the schema whose
DEFAULT creates tasks in pending. -/

/-- Modelled from the spec: the defined status transitions of a research
task. -/
def allowedTransition : TaskStatus → TaskStatus → Bool
  | .pending, .running => true
  | .running, .completed => true
  | .running, .failed => true
  | _, _ => false

/-- Position of a status in the lifecycle order: pending before running
before the two terminal states. -/
def statusRank : TaskStatus → Nat
  | .pending => 0
  | .running => 1
  | .completed => 2
  | .failed => 2

/-! ### Example data for witnesses, shaped after infra/supabase/seed.sql. -/

/-- A completed seed task row (ids shortened). -/
def seedTask1 : ResearchTaskRow :=
  ⟨"t1", "q1", .obj [], "completed", none, none, none, none, none, none, .obj []⟩

/-- A pending seed task row. -/
def seedTask2 : ResearchTaskRow :=
  ⟨"t2", "q2", .obj [], "pending", none, none, none, none, none, none, .obj []⟩

/-- A seed finding for the completed task, confidence 0.92. -/
def seedFinding1 : ResearchFindingRow :=
  ⟨"f1", "t1", "sq1", "resp1", .arr [], some (92 / 100), none⟩

/-- A seed inference one step from direct evidence. -/
def seedInference1 : InferenceRow :=
  ⟨"i1", "t1", "claim1", .arr [], 1, "direct", none⟩

/-- A seed inference two steps from direct evidence. -/
def seedInference2 : InferenceRow :=
  ⟨"i2", "t1", "claim2", .arr [], 2, "combined", none⟩

/-- A seed eval result scoring reasoning quality 0.85. -/
def seedEval1 : EvalResultRow :=
  ⟨"e1", "t1", "reasoning_quality", some (85 / 100), none, none⟩

/-- A small database in the shape of the seed data. -/
def seedDatabase : Database :=
  ⟨[seedTask1, seedTask2], [seedFinding1], [seedInference1, seedInference2], [seedEval1]⟩

/-- A running task with a started_at timestamp and no completed_at. -/
def exampleTask : ResearchTask :=
  ⟨"t3", "q3", .running, none, none, "2026-01-15T00:00:00Z",
   some "2026-01-15T00:00:05Z", none⟩

/-! ### Round-trip helper lemmas for the wire serialization. -/

theorem decodeArray_map (dec : JsonValue → Option α) (enc : α → JsonValue)
    (h : ∀ a, dec (enc a) = some a) (xs : List α) :
    decodeArray dec (xs.map enc) = some xs := by
  induction xs with
  | nil => rfl
  | cons a as ih => simp [decodeArray, h, ih]

theorem asString_str (s : String) : asString (.str s) = some s := rfl

theorem decodeCitation_encode (c : Citation) :
    decodeCitation (encodeCitation c) = some c := by
  cases c; rfl

theorem decodeInference_encode (r : Inference) :
    decodeInference (encodeInference r) = some r := by
  cases r with
  | mk claim cits deg reasoning =>
    simp [encodeInference, decodeInference, JsonValue.getField, lookupField,
      asString, asInt, asArray, decodeArray_map, asString_str,
      Rat.den_intCast, Rat.num_intCast]

theorem decodeReasoningStep_encode (s : ReasoningStep) :
    decodeReasoningStep (encodeReasoningStep s) = some s := by
  cases s with
  | mk n action inp outp rationale =>
    simp [encodeReasoningStep, decodeReasoningStep, JsonValue.getField, lookupField,
      asString, asInt, Rat.den_intCast, Rat.num_intCast]

theorem decodeResearchResult_encode (r : ResearchResult) :
    decodeResearchResult (encodeResearchResult r) = some r := by
  cases r with
  | mk summary kf infs trace cits score =>
    simp [encodeResearchResult, decodeResearchResult, JsonValue.getField, lookupField,
      asString, asRat, asArray, decodeArray_map, asString_str,
      decodeInference_encode, decodeReasoningStep_encode, decodeCitation_encode]

theorem statusFromWire_toWire (s : TaskStatus) : statusFromWire s.toWire = some s := by
  cases s <;> rfl

theorem asNullableString_encode (o : Option String) :
    asNullableString (encodeNullableString o) = some o := by
  cases o <;> rfl

theorem decodeNullableResult_encode (r : ResearchResult) :
    decodeNullableResult (encodeResearchResult r) = some (some r) := by
  have h : decodeNullableResult (encodeResearchResult r)
      = (decodeResearchResult (encodeResearchResult r)).map some := rfl
  rw [h, decodeResearchResult_encode]; rfl

/-! ### The claims. -/

/-- C1: the documented backend validation for Inference.degrees_of_separation
requires at least 1, while the schema constraint chk_degrees_non_negative
requires only at least 0; the value 0 is accepted by the schema constraint
and rejected by the documented validation, and every inference row of a
database satisfying the CHECK constraints has degrees_of_separation at
least 0. -/
theorem inference_degrees_bounds :
    chk_degrees_non_negative 0 = true ∧
    validInferenceDegrees 0 = false ∧
    ∀ db : Database, db.satisfiesChecks = true →
      ∀ r ∈ db.inferences, 0 ≤ r.degrees_of_separation := by
  refine ⟨rfl, rfl, ?_⟩
  intro db h r hr
  simp only [Database.satisfiesChecks, Bool.and_eq_true, List.all_eq_true] at h
  have := h.1.2 r hr
  simpa [chk_degrees_non_negative] using this

/-- Witness for C1 at the seed-shaped database: its CHECK constraints hold
and its inferences all have non-negative degrees of separation. -/
theorem inference_degrees_bounds_witness :
    chk_degrees_non_negative 0 = true ∧
    validInferenceDegrees 0 = false ∧
    ∀ r ∈ seedDatabase.inferences, 0 ≤ r.degrees_of_separation :=
  ⟨inference_degrees_bounds.1, inference_degrees_bounds.2.1,
   inference_degrees_bounds.2.2 seedDatabase (by
     simp [Database.satisfiesChecks, seedDatabase, seedTask1, seedTask2, seedFinding1,
       seedInference1, seedInference2, seedEval1, chk_task_status, chk_confidence_range,
       chk_degrees_non_negative, chk_score_range]
     norm_num)⟩

/-- C2: a CreateResearchRequest passes the documented validation exactly
when its query length is between 1 and 2000 and its max_iterations, when
present, is between 1 and 20; everything outside those ranges is
rejected. -/
theorem create_research_request_validation (r : CreateResearchRequest) :
    validateCreateResearchRequest r = true ↔
      (1 ≤ r.query.length ∧ r.query.length ≤ 2000 ∧
       ∀ n, r.max_iterations = some n → 1 ≤ n ∧ n ≤ 20) := by
  cases r with
  | mk q w m =>
    cases m <;>
      simp [validateCreateResearchRequest, and_assoc]

/-- Witness for C2 at a concrete in-range request. -/
theorem create_research_request_validation_witness :
    validateCreateResearchRequest ⟨"ok", none, some 5⟩ = true :=
  (create_research_request_validation ⟨"ok", none, some 5⟩).mpr
    ⟨by decide, by decide, by intro n hn; cases hn; exact ⟨by decide, by decide⟩⟩

/-- C3: cascading delete of a research_tasks row removes exactly the
dependent rows referencing its id: afterwards no finding, inference or
eval result with that task_id remains, and rows of other tasks are
unchanged. -/
theorem cascade_delete_exact (db : Database) (tid : String) :
    (∀ f ∈ (db.deleteResearchTask tid).research_findings, f.task_id ≠ tid) ∧
    (∀ r ∈ (db.deleteResearchTask tid).inferences, r.task_id ≠ tid) ∧
    (∀ e ∈ (db.deleteResearchTask tid).eval_results, e.task_id ≠ tid) ∧
    (∀ f : ResearchFindingRow, f.task_id ≠ tid →
       (f ∈ (db.deleteResearchTask tid).research_findings ↔ f ∈ db.research_findings)) ∧
    (∀ r : InferenceRow, r.task_id ≠ tid →
       (r ∈ (db.deleteResearchTask tid).inferences ↔ r ∈ db.inferences)) ∧
    (∀ e : EvalResultRow, e.task_id ≠ tid →
       (e ∈ (db.deleteResearchTask tid).eval_results ↔ e ∈ db.eval_results)) := by
  simp only [Database.deleteResearchTask, List.mem_filter, decide_eq_true_eq]
  refine ⟨fun f hf => hf.2, fun r hr => hr.2, fun e he => he.2, ?_, ?_, ?_⟩ <;>
    intro x hx <;> simp [hx]

/-- Witness for C3: deleting the completed seed task from the seed-shaped
database. -/
theorem cascade_delete_exact_witness :
    (∀ f ∈ (seedDatabase.deleteResearchTask "t1").research_findings, f.task_id ≠ "t1") ∧
    (∀ r ∈ (seedDatabase.deleteResearchTask "t1").inferences, r.task_id ≠ "t1") ∧
    (∀ e ∈ (seedDatabase.deleteResearchTask "t1").eval_results, e.task_id ≠ "t1") ∧
    (∀ f : ResearchFindingRow, f.task_id ≠ "t1" →
       (f ∈ (seedDatabase.deleteResearchTask "t1").research_findings ↔
        f ∈ seedDatabase.research_findings)) ∧
    (∀ r : InferenceRow, r.task_id ≠ "t1" →
       (r ∈ (seedDatabase.deleteResearchTask "t1").inferences ↔
        r ∈ seedDatabase.inferences)) ∧
    (∀ e : EvalResultRow, e.task_id ≠ "t1" →
       (e ∈ (seedDatabase.deleteResearchTask "t1").eval_results ↔
        e ∈ seedDatabase.eval_results)) :=
  cascade_delete_exact seedDatabase "t1"

/-- C4 counterexample: the task_started variant carries exactly the base
fields, so its field set is not a strict superset of the base fields. -/
theorem stream_event_strict_superset_cex :
    (StreamEvent.TaskStartedEvent "t1" "ts").fieldNames = baseEventFields ∧
    ¬ baseEventFields.toFinset ⊂
        ((StreamEvent.TaskStartedEvent "t1" "ts").fieldNames).toFinset :=
  ⟨rfl, by decide⟩

/-- C4 as amended: StreamEvent has exactly five variants keyed by
event_type, every variant carries the base fields, the field set of every
variant other than task_started is a strict superset of the base while
the task_started field set equals the base, the fields present are
exactly those declared for the tag, and no field of another variant
beyond the base appears in a different variant. -/
theorem stream_event_fields_by_tag :
    (∀ e : StreamEvent, e.fieldNames = declaredFields e.event_type) ∧
    (∀ e : StreamEvent, baseEventFields ⊆ e.fieldNames) ∧
    (∀ e : StreamEvent, e.event_type ≠ EventType.task_started →
       baseEventFields.toFinset ⊂ e.fieldNames.toFinset) ∧
    (∀ e : StreamEvent, e.event_type = EventType.task_started →
       e.fieldNames = baseEventFields) ∧
    (∀ t u : EventType, t ≠ u →
       ∀ fld ∈ declaredFields t, fld ∈ declaredFields u → fld ∈ baseEventFields) ∧
    Function.Surjective StreamEvent.event_type ∧
    Fintype.card EventType = 5 := by
  refine ⟨fun e => by cases e <;> rfl,
    fun e => by cases e <;> simp only [StreamEvent.fieldNames] <;> decide,
    fun e => by
      cases e <;> simp only [StreamEvent.event_type, StreamEvent.fieldNames] <;> decide,
    fun e => by
      cases e <;> simp only [StreamEvent.event_type, StreamEvent.fieldNames] <;> decide,
    by decide, ?_, by decide⟩
  intro t
  cases t
  exacts [⟨.TaskCreatedEvent "" "" "", rfl⟩, ⟨.TaskStartedEvent "" "", rfl⟩,
    ⟨.StepCompletedEvent "" "" ⟨0, "", "", "", ""⟩, rfl⟩,
    ⟨.TaskCompletedEvent "" "" ⟨"", [], [], [], [], 0⟩, rfl⟩,
    ⟨.TaskFailedEvent "" "" "" none, rfl⟩]

/-- C5: a ResearchResult passing the documented validation has
confidence_score in the closed interval from 0 to 1, and a non-null
confidence or score accepted by the schema range checks lies in the same
interval. -/
theorem confidence_scores_bounded :
    (∀ r : ResearchResult, validResearchResult r = true →
       0 ≤ r.confidence_score ∧ r.confidence_score ≤ 1) ∧
    (∀ c : ℚ, chk_confidence_range (some c) = true → 0 ≤ c ∧ c ≤ 1) ∧
    (∀ s : ℚ, chk_score_range (some s) = true → 0 ≤ s ∧ s ≤ 1) := by
  refine ⟨?_, ?_, ?_⟩ <;> intro x h <;>
    simpa [validResearchResult, chk_confidence_range, chk_score_range] using h

/-- Witness for C5 at the concrete accepted confidence 19/20. -/
theorem confidence_scores_bounded_witness :
    0 ≤ (19 / 20 : ℚ) ∧ (19 / 20 : ℚ) ≤ 1 :=
  confidence_scores_bounded.2.1 (19 / 20) (by
    simp [chk_confidence_range]
    norm_num)

/-- C6: a status string is accepted by the CHECK constraint exactly when
it is the wire form of one of the four TaskStatus values, the task_status
enum lists exactly those strings, the wire forms are distinct, and
TaskStatus has exactly four values. -/
theorem task_status_four_values :
    (∀ s : String, chk_task_status s = true ↔ ∃ t : TaskStatus, t.toWire = s) ∧
    (∀ s : String, s ∈ task_status ↔ ∃ t : TaskStatus, t.toWire = s) ∧
    Function.Injective TaskStatus.toWire ∧
    Fintype.card TaskStatus = 4 := by
  refine ⟨?_, ?_, ?_, by decide⟩
  · intro s
    constructor
    · intro h
      simp [chk_task_status] at h
      rcases h with h | h | h | h <;> subst h
      exacts [⟨.pending, rfl⟩, ⟨.running, rfl⟩, ⟨.completed, rfl⟩, ⟨.failed, rfl⟩]
    · rintro ⟨t, rfl⟩
      cases t <;> decide
  · intro s
    constructor
    · intro h
      simp [task_status] at h
      rcases h with h | h | h | h <;> subst h
      exacts [⟨.pending, rfl⟩, ⟨.running, rfl⟩, ⟨.completed, rfl⟩, ⟨.failed, rfl⟩]
    · rintro ⟨t, rfl⟩
      cases t <;> decide
  · have h : ∀ a b : TaskStatus, a.toWire = b.toWire → a = b := by decide
    exact fun a b => h a b

/-- C7: a row created with the schema defaults has status pending, every
defined transition strictly increases the lifecycle rank, the only
defined transitions are pending to running, running to completed and
running to failed, and the terminal states have no outgoing
transition. -/
theorem task_lifecycle_monotone :
    (∀ id q, (newResearchTaskRow id q).status = TaskStatus.pending.toWire) ∧
    (∀ s t, allowedTransition s t = true → statusRank s < statusRank t) ∧
    (∀ s t, allowedTransition s t = true →
       (s = TaskStatus.pending ∧ t = TaskStatus.running) ∨
       (s = TaskStatus.running ∧ t = TaskStatus.completed) ∨
       (s = TaskStatus.running ∧ t = TaskStatus.failed)) ∧
    (∀ t, allowedTransition TaskStatus.completed t = false ∧
          allowedTransition TaskStatus.failed t = false) :=
  ⟨fun _ _ => rfl, by decide, by decide, by decide⟩

/-- C8: serializing a ResearchTask to the wire shape and decoding it back
yields the original value in every field, null and non-null timestamps
included. -/
theorem research_task_wire_roundtrip (t : ResearchTask) :
    decodeResearchTask (encodeResearchTask t) = some t := by
  cases t with
  | mk id query status result err ca sa co =>
    cases result with
    | none =>
      simp [encodeResearchTask, decodeResearchTask, JsonValue.getField, lookupField,
        asString, asNullableString_encode, statusFromWire_toWire, decodeNullableResult]
    | some r =>
      simp [encodeResearchTask, decodeResearchTask, JsonValue.getField, lookupField,
        asString, asNullableString_encode, statusFromWire_toWire,
        decodeNullableResult_encode]

/-- Witness for C8 at a running task whose started_at is set and whose
completed_at is still null. -/
theorem research_task_wire_roundtrip_witness :
    decodeResearchTask (encodeResearchTask exampleTask) = some exampleTask :=
  research_task_wire_roundtrip exampleTask

/-- C9: StreamEventType has exactly six values, EventType exactly five,
the inclusion of EventType into StreamEventType is injective and misses
only heartbeat, a stream chunk can carry the heartbeat tag, and no
StreamEvent variant maps to heartbeat. -/
theorem stream_event_type_six_values :
    Fintype.card StreamEventType = 6 ∧
    Fintype.card EventType = 5 ∧
    (∀ e f : EventType, e.toStreamEventType = f.toStreamEventType → e = f) ∧
    (∀ e : EventType, e.toStreamEventType ≠ StreamEventType.heartbeat) ∧
    (∀ s : StreamEventType,
       s = StreamEventType.heartbeat ∨ ∃ e : EventType, e.toStreamEventType = s) ∧
    (∃ ch : ResearchStreamChunk, ch.event = StreamEventType.heartbeat) ∧
    (∀ ev : StreamEvent, ev.event_type.toStreamEventType ≠ StreamEventType.heartbeat) :=
  ⟨by decide, by decide, by decide, by decide, by decide,
   ⟨⟨.heartbeat, []⟩, rfl⟩,
   fun ev => by cases ev <;> simp only [StreamEvent.event_type] <;> decide⟩

/-- C10: the schema range checks accept NULL confidence and NULL score,
so a persisted finding or eval result need not carry either value. -/
theorem range_checks_admit_null :
    chk_confidence_range none = true ∧ chk_score_range none = true ∧
    (∃ f : ResearchFindingRow, f.confidence = none ∧ chk_confidence_range f.confidence = true) ∧
    (∃ e : EvalResultRow, e.score = none ∧ chk_score_range e.score = true) :=
  ⟨rfl, rfl, ⟨⟨"f0", "t0", "sq0", "resp0", .arr [], none, none⟩, rfl, rfl⟩,
   ⟨⟨"e0", "t0", "hallucination", none, none, none⟩, rfl, rfl⟩⟩

end DeepResearch
